import Mathlib

/-!
Shallow embedding of src/esp32/src/main.cpp of letung3105/serverless-iot-esp32.

The file models the task configurations declared at the top of main.cpp, the
anonymous callback bodies of those tasks, and the setup routine, as pure Lean
functions over explicit state and event traces.  The cooperative scheduler
itself (the TaskScheduler library) is not part of the repository sources, so
its enable/tick/disable mechanics are modelled from the specification
(section 4.1 of the spec) where a claim needs them; every such definition is
marked in its doc comment.
-/

/-- Externally visible effects performed by the task callback bodies in
main.cpp: actuator writes, task restarts, and service calls. -/
inductive Effect
  /-- hhState.writeLampPinID(b) -/
  | writeLamp (b : Bool)
  /-- hhState.writePumpPinID(b) -/
  | writePump (b : Bool)
  /-- tPublishShadowUpdate.restart() -/
  | restartShadow
  /-- tPublishShadowUpdate.restartDelayed(ms) -/
  | restartShadowDelayed (ms : Nat)
  /-- tTurnOnWaterPump.restart() -/
  | restartPumpTask
  /-- tPublishSensorsMeasurements.restart() -/
  | restartMeasurements
  /-- hhService.loop() -/
  | serviceLoop
  /-- a call to hhService.connect() (regardless of its outcome) -/
  | connectAttempt
  /-- hhService.publishShadowUpdate() -/
  | publishShadow
  /-- hhService.publishSensorsMeasurements() -/
  | publishMeasurements
  deriving DecidableEq, Repr

/-- Constants of the TaskScheduler library used by main.cpp (milliseconds
and iteration counts; TASK_FOREVER is the sentinel -1). -/
def TASK_IMMEDIATE : Nat := 0

/-- TaskScheduler library constant: one second in milliseconds. -/
def TASK_SECOND : Nat := 1000

/-- TaskScheduler library constant: one minute in milliseconds. -/
def TASK_MINUTE : Nat := 60 * 1000

/-- TaskScheduler library constant: a single iteration. -/
def TASK_ONCE : Int := 1

/-- TaskScheduler library constant: unbounded iterations. -/
def TASK_FOREVER : Int := -1

/-- The OnEnable hooks that occur in main.cpp, plus the hypothetical
connectivity gate that the spec attributes to the publish tasks.
The only OnEnable hook actually passed to a Task constructor in main.cpp is
the watering hook of tTurnOnWaterPump, which turns the pump on, restarts the
shadow-publish task, and returns true. -/
inductive OnEnableHook
  /-- the OnEnable lambda of tTurnOnWaterPump (START WATERING; returns true) -/
  | startWatering
  /-- Modelled from the spec: an enable predicate that returns connected(),
  vetoing activation while offline.  No Task constructor call in main.cpp
  passes such a hook; it exists here only so the spec claim about the publish
  tasks can be stated and compared against the source. -/
  | gateOnConnected
  deriving DecidableEq, Repr

/-- The static configuration passed to a TaskScheduler Task constructor in
main.cpp: interval, iterations, whether a callback is supplied (NULL or not),
whether the task starts enabled, the OnEnable hook if any, and whether an
OnDisable hook is supplied.  The constructor signature is
Task(interval, iterations, callback, scheduler, enable, onEnable, onDisable)
with the last two defaulting to NULL when omitted. -/
structure TaskConfig where
  interval : Nat
  iterations : Int
  hasCallback : Bool
  enabledAtCreation : Bool
  onEnable : Option OnEnableHook
  hasOnDisable : Bool
  deriving DecidableEq, Repr

/-- Task tPublishShadowUpdate(TASK_IMMEDIATE, TASK_ONCE, callback, scheduler,
false) — constructed with five arguments, so OnEnable and OnDisable are NULL. -/
def tPublishShadowUpdate : TaskConfig :=
  { interval := TASK_IMMEDIATE
    iterations := TASK_ONCE
    hasCallback := true
    enabledAtCreation := false
    onEnable := none
    hasOnDisable := false }

/-- Task tPublishSensorsMeasurements(TASK_IMMEDIATE, TASK_ONCE, callback,
scheduler, false) — five arguments, so OnEnable and OnDisable are NULL. -/
def tPublishSensorsMeasurements : TaskConfig :=
  { interval := TASK_IMMEDIATE
    iterations := TASK_ONCE
    hasCallback := true
    enabledAtCreation := false
    onEnable := none
    hasOnDisable := false }

/-- Task tTurnOnWaterPump(5 * TASK_SECOND, TASK_ONCE, NULL, scheduler, false,
onEnable, onDisable): NULL callback, the watering OnEnable hook, and an
OnDisable hook that turns the pump off. -/
def tTurnOnWaterPump : TaskConfig :=
  { interval := 5 * TASK_SECOND
    iterations := TASK_ONCE
    hasCallback := false
    enabledAtCreation := false
    onEnable := some OnEnableHook.startWatering
    hasOnDisable := true }

/-- Task tHappyHerbsServiceLoop(TASK_IMMEDIATE, TASK_FOREVER, callback,
scheduler, false). -/
def tHappyHerbsServiceLoop : TaskConfig :=
  { interval := TASK_IMMEDIATE
    iterations := TASK_FOREVER
    hasCallback := true
    enabledAtCreation := false
    onEnable := none
    hasOnDisable := false }

/-- Task tPeriodicSensorsMeasurementsPublish(10 * TASK_MINUTE, TASK_FOREVER,
callback, scheduler, false). -/
def tPeriodicSensorsMeasurementsPublish : TaskConfig :=
  { interval := 10 * TASK_MINUTE
    iterations := TASK_FOREVER
    hasCallback := true
    enabledAtCreation := false
    onEnable := none
    hasOnDisable := false }

/-- Task tTurnOnWaterPumpBaseOnMoisture(15 * TASK_MINUTE, TASK_FOREVER,
callback, scheduler, false). -/
def tTurnOnWaterPumpBaseOnMoisture : TaskConfig :=
  { interval := 15 * TASK_MINUTE
    iterations := TASK_FOREVER
    hasCallback := true
    enabledAtCreation := false
    onEnable := none
    hasOnDisable := false }

/-- Task tTurnOnLampBaseOnLightMeter(30 * TASK_MINUTE, TASK_FOREVER,
callback, scheduler, false). -/
def tTurnOnLampBaseOnLightMeter : TaskConfig :=
  { interval := 30 * TASK_MINUTE
    iterations := TASK_FOREVER
    hasCallback := true
    enabledAtCreation := false
    onEnable := none
    hasOnDisable := false }

/-- The in-memory device state held by HappyHerbsState: the two actuator
booleans and the two automation thresholds (readings are polled on demand and
passed to the callback bodies as arguments here). -/
structure HappyHerbsState where
  lampOn : Bool
  pumpOn : Bool
  lightThreshold : Int
  moistureThreshold : Int
  deriving DecidableEq, Repr

/-- The callback body of tTurnOnLampBaseOnLightMeter, as a function of the
current device state and the value returned by readLightSensorBH1750():
write the lamp pin low, then write it high exactly when the reading is
strictly below the light threshold, then restart tPublishShadowUpdate.
Returns the updated state and the trace of effects in program order. -/
def tTurnOnLampBaseOnLightMeterCb (s : HappyHerbsState) (lightReading : Int) :
    HappyHerbsState × List Effect :=
  let s1 : HappyHerbsState := { s with lampOn := false }
  if lightReading < s1.lightThreshold then
    ({ s1 with lampOn := true },
      [Effect.writeLamp false, Effect.writeLamp true, Effect.restartShadow])
  else
    (s1, [Effect.writeLamp false, Effect.restartShadow])

/-- The callback body of tTurnOnWaterPumpBaseOnMoisture, as a function of the
value returned by readMoistureSensor() and the current moisture threshold:
restart tTurnOnWaterPump exactly when the reading compares strictly below the
threshold; otherwise do nothing.  There is no other test in the body. -/
def tTurnOnWaterPumpBaseOnMoistureCb (moistureReading moistureThreshold : Int) :
    List Effect :=
  if moistureReading < moistureThreshold then [Effect.restartPumpTask] else []

/-- The callback body of tHappyHerbsServiceLoop, as a function of the value
of hhService.connected() and of whether the hhService.connect() attempt would
succeed: when connected, call loop() and return; otherwise attempt connect(),
and on success restart tPublishShadowUpdate delayed by 500 ms. -/
def tHappyHerbsServiceLoopCb (isConnected connectSucceeds : Bool) :
    List Effect :=
  if isConnected then
    [Effect.serviceLoop]
  else if connectSucceeds then
    [Effect.connectAttempt, Effect.restartShadowDelayed 500]
  else
    [Effect.connectAttempt]

/-- The callback body of tPeriodicSensorsMeasurementsPublish: restart the
measurement-publish one-shot task. -/
def tPeriodicSensorsMeasurementsPublishCb : List Effect :=
  [Effect.restartMeasurements]

/-- Modelled from the spec (section 4.1): the outcome of the enable predicate
when a task is enabled.  A missing hook never vetoes; the watering hook of
tTurnOnWaterPump returns true; the hypothetical connectivity gate returns
connected().  The task proceeds to the armed state exactly when this returns
true. -/
def runOnEnableHook (hook : Option OnEnableHook) (isConnected : Bool) : Bool :=
  match hook with
  | none => true
  | some OnEnableHook.startWatering => true
  | some OnEnableHook.gateOnConnected => isConnected

/-- Modelled from the spec (sections 4.1 and 4.4): whether an activation of a
task runs its body.  With no enable predicate the activation is never vetoed,
so a task with a zero interval becomes immediate-due and its body executes on
the next scheduler pass regardless of connectivity. -/
def activationRunsBody (t : TaskConfig) (isConnected : Bool) : Bool :=
  runOnEnableHook t.onEnable isConnected

/-- The diagnostic messages printed by setup() in main.cpp, as an enumeration
(each constructor stands for the corresponding Serial.println string). -/
inductive DiagMsg
  /-- Could not start file system -/
  | couldNotStartFileSystem
  /-- Could not begin BH1750 light sensor -/
  | couldNotBeginLightSensor
  /-- Could not read AWS endpoint from file -/
  | couldNotReadAwsEndpoint
  /-- Could not read root CA certificate from file -/
  | couldNotReadRootCACert
  /-- Could not read client certificate from file -/
  | couldNotReadClientCert
  /-- Could not read client key from file -/
  | couldNotReadClientKey
  /-- Could not read AWS thing name from file -/
  | couldNotReadThingName
  deriving DecidableEq, Repr

/-- The tasks registered with the scheduler in main.cpp, by name. -/
inductive TaskId
  | publishShadowUpdate
  | publishSensorsMeasurements
  | turnOnWaterPump
  | happyHerbsServiceLoop
  | periodicSensorsMeasurementsPublish
  | turnOnWaterPumpBaseOnMoisture
  | turnOnLampBaseOnLightMeter
  deriving DecidableEq, Repr

/-- The observable steps taken by setup() in main.cpp, in program order. -/
inductive SetupEvent
  /-- Serial.println of a diagnostic message -/
  | diag (m : DiagMsg)
  /-- WiFi.begin followed by the blocking wait for WL_CONNECTED -/
  | wifiBegin
  /-- configTime(ntpTimezoneOffset, ntpDaylightOffset, NTP_SERVER) -/
  | configNtpTime
  /-- wifiClient.setCACert(awsRootCACert) -/
  | setCACert
  /-- wifiClient.setCertificate(awsClientCert) -/
  | setCertificate
  /-- wifiClient.setPrivateKey(awsClientKey) -/
  | setPrivateKey
  /-- pubsubClient.setServer(awsEndpoint, 8883) -/
  | setServer
  /-- pubsubClient.setCallback(...) -/
  | setMessageCallback
  /-- hhService.setThingName(awsThingName) -/
  | setThingName
  /-- hhState.writeLampPinID(b) -/
  | writeLampPin (b : Bool)
  /-- hhState.writePumpPinID(b) -/
  | writePumpPin (b : Bool)
  /-- hhState.setLightThreshold(v) -/
  | setLightThresholdTo (v : Int)
  /-- hhState.setMoistureThreshold(v) -/
  | setMoistureThresholdTo (v : Int)
  /-- t.enable() on the named task -/
  | enableTask (t : TaskId)
  deriving DecidableEq, Repr

/-- The inputs that decide the control flow of setup(): whether SPIFFS.begin
and the light-sensor begin succeed, and the results of the five loadFile
calls (none models a NULL return). -/
structure SetupConfig where
  spiffsOk : Bool
  lightSensorOk : Bool
  awsEndpoint : Option String
  awsRootCACert : Option String
  awsClientCert : Option String
  awsClientKey : Option String
  awsThingName : Option String
  deriving Repr

/-- The setup() function of main.cpp as a trace of observable steps, with the
compile-time constants DEFAULT_LIGHT_THRESHOLD and DEFAULT_MOISTURE_THRESHOLD
(defined in constants.h, outside the provided sources) passed in as
parameters.  Pin configuration and serial initialization, which precede the
first failure check and touch no modelled state, are not recorded.  Each
early return of the source corresponds to a branch whose trace ends at the
diagnostic; note the missing-thing-name branch of the source only prints and
falls through. -/
def setup (cfg : SetupConfig) (defaultLightThreshold defaultMoistureThreshold : Int) :
    List SetupEvent :=
  if !cfg.spiffsOk then
    [SetupEvent.diag DiagMsg.couldNotStartFileSystem]
  else
    (if !cfg.lightSensorOk then [SetupEvent.diag DiagMsg.couldNotBeginLightSensor] else [])
    ++ [SetupEvent.wifiBegin, SetupEvent.configNtpTime]
    ++ match cfg.awsEndpoint with
      | none => [SetupEvent.diag DiagMsg.couldNotReadAwsEndpoint]
      | some _ =>
        match cfg.awsRootCACert with
        | none => [SetupEvent.diag DiagMsg.couldNotReadRootCACert]
        | some _ =>
          match cfg.awsClientCert with
          | none => [SetupEvent.diag DiagMsg.couldNotReadClientCert]
          | some _ =>
            match cfg.awsClientKey with
            | none => [SetupEvent.diag DiagMsg.couldNotReadClientKey]
            | some _ =>
              [SetupEvent.setCACert, SetupEvent.setCertificate, SetupEvent.setPrivateKey,
               SetupEvent.setServer, SetupEvent.setMessageCallback]
              ++ (match cfg.awsThingName with
                | none => [SetupEvent.diag DiagMsg.couldNotReadThingName]
                | some _ => [])
              ++ [SetupEvent.setThingName,
                  SetupEvent.writeLampPin false, SetupEvent.writePumpPin false,
                  SetupEvent.setLightThresholdTo defaultLightThreshold,
                  SetupEvent.setMoistureThresholdTo defaultMoistureThreshold,
                  SetupEvent.enableTask TaskId.happyHerbsServiceLoop,
                  SetupEvent.enableTask TaskId.periodicSensorsMeasurementsPublish,
                  SetupEvent.enableTask TaskId.turnOnLampBaseOnLightMeter,
                  SetupEvent.enableTask TaskId.turnOnWaterPumpBaseOnMoisture]

/-- True when all the fallible steps of setup() that guard an early return or
the thing-name load succeed. -/
def setupOk (cfg : SetupConfig) : Bool :=
  cfg.spiffsOk && cfg.awsEndpoint.isSome && cfg.awsRootCACert.isSome
    && cfg.awsClientCert.isSome && cfg.awsClientKey.isSome && cfg.awsThingName.isSome

/-- Effect of one setup event on the in-memory device state. -/
def applyEvent (s : HappyHerbsState) : SetupEvent → HappyHerbsState
  | SetupEvent.writeLampPin b => { s with lampOn := b }
  | SetupEvent.writePumpPin b => { s with pumpOn := b }
  | SetupEvent.setLightThresholdTo v => { s with lightThreshold := v }
  | SetupEvent.setMoistureThresholdTo v => { s with moistureThreshold := v }
  | _ => s

/-- Effect of a list of setup events on the device state, in order. -/
def applyEvents (s : HappyHerbsState) (es : List SetupEvent) : HappyHerbsState :=
  es.foldl applyEvent s

/-- Whether a setup event enables a task. -/
def isEnableEvent : SetupEvent → Bool
  | SetupEvent.enableTask _ => true
  | _ => false

/-- Scheduler-level state of the one-shot tTurnOnWaterPump task: whether it
is armed, its elapsed time in milliseconds since it was enabled, and the
accumulated trace of effects performed by its hooks. -/
structure PumpSim where
  armed : Bool
  elapsed : Nat
  trace : List Effect
  deriving DecidableEq, Repr

/-- Modelled from the spec (section 4.1): enabling (or restarting)
tTurnOnWaterPump runs its OnEnable hook — print START WATERING, write the
pump pin high, restart tPublishShadowUpdate, return true — and, the predicate
having returned true, arms the task with its elapsed time reset to zero. -/
def pumpEnable : PumpSim :=
  { armed := true
    elapsed := 0
    trace := [Effect.writePump true, Effect.restartShadow] }

/-- Modelled from the spec (section 4.1): one millisecond of scheduler time
for the armed tTurnOnWaterPump task.  When the elapsed time reaches the
configured interval the due iteration runs (the callback is NULL, so it has
no effect), the single iteration of TASK_ONCE is exhausted, and the task is
disabled, which runs its OnDisable hook — print STOP WATERING, write the pump
pin low, restart tPublishShadowUpdate.  A task that is not armed is left
untouched. -/
def pumpTick (s : PumpSim) : PumpSim :=
  if s.armed then
    if tTurnOnWaterPump.interval ≤ s.elapsed + 1 then
      { armed := false
        elapsed := s.elapsed + 1
        trace := s.trace ++ [Effect.writePump false, Effect.restartShadow] }
    else
      { s with elapsed := s.elapsed + 1 }
  else s

/-- The state of the run-pump task n milliseconds after it was enabled. -/
def pumpRun (n : Nat) : PumpSim :=
  pumpTick^[n] pumpEnable

/-- The device state after n consecutive executions of the light-rule body
with the same light reading. -/
def lightRuleIter (s : HappyHerbsState) (lightReading : Int) : Nat → HappyHerbsState
  | 0 => s
  | n + 1 => (tTurnOnLampBaseOnLightMeterCb (lightRuleIter s lightReading n) lightReading).1

/-- A setup configuration in which every fallible step succeeds. -/
def cfgAllOk : SetupConfig :=
  { spiffsOk := true
    lightSensorOk := true
    awsEndpoint := some "endpoint"
    awsRootCACert := some "rootCACert"
    awsClientCert := some "clientCert"
    awsClientKey := some "clientKey"
    awsThingName := some "happy-herbs" }

/-- A setup configuration in which only the AWS thing-name file fails to
load. -/
def cfgMissingThingName : SetupConfig :=
  { cfgAllOk with awsThingName := none }

example : tTurnOnWaterPumpBaseOnMoistureCb 300 400 = [Effect.restartPumpTask] := by decide
example : tTurnOnWaterPumpBaseOnMoistureCb 400 400 = [] := by decide
example : (tTurnOnLampBaseOnLightMeterCb ⟨true, false, 100, 400⟩ 50).1.lampOn = true := by decide

/-! ## Helper lemmas -/

/-- Closed form of the run-pump simulation: while the elapsed time is below
the configured interval the task is armed and only the enable-time effects
have happened; from the moment the interval elapses the task is disabled and
the disable-hook effects have been appended exactly once. -/
theorem pumpRun_closed_form (n : Nat) :
    pumpRun n =
      if n < tTurnOnWaterPump.interval then
        { armed := true
          elapsed := n
          trace := [Effect.writePump true, Effect.restartShadow] }
      else
        { armed := false
          elapsed := tTurnOnWaterPump.interval
          trace := [Effect.writePump true, Effect.restartShadow,
                    Effect.writePump false, Effect.restartShadow] } := by
  have hI : (0 : Nat) < tTurnOnWaterPump.interval := by decide
  induction n with
  | zero =>
    simp only [pumpRun, Function.iterate_zero, id_eq, if_pos hI]
    rfl
  | succ m ih =>
    rw [pumpRun, Function.iterate_succ_apply', ← pumpRun, ih]
    by_cases h : m < tTurnOnWaterPump.interval
    · by_cases h2 : m + 1 < tTurnOnWaterPump.interval
      · have h3 : ¬ tTurnOnWaterPump.interval ≤ m + 1 := by omega
        simp [h, h2, pumpTick, h3]
      · have h3 : tTurnOnWaterPump.interval ≤ m + 1 := by omega
        have h4 : m + 1 = tTurnOnWaterPump.interval := by omega
        simp [h, h2, pumpTick, h3, h4]
    · have h2 : ¬ m + 1 < tTurnOnWaterPump.interval := by omega
      simp [h, h2, pumpTick]

/-- The light-rule body never changes the light threshold, so iterating it
keeps the threshold of the initial state. -/
theorem lightRuleIter_lightThreshold (s : HappyHerbsState) (r : Int) (n : Nat) :
    (lightRuleIter s r n).lightThreshold = s.lightThreshold := by
  induction n with
  | zero => rfl
  | succ m ih =>
    rw [lightRuleIter]
    by_cases h : r < s.lightThreshold <;>
      simp [tTurnOnLampBaseOnLightMeterCb, h, ih]

/-- The moisture-rule body restarts the run-pump task exactly when the value
it read compares strictly below the threshold. -/
theorem moistureCb_restart_iff (v t : Int) :
    Effect.restartPumpTask ∈ tTurnOnWaterPumpBaseOnMoistureCb v t ↔ v < t := by
  by_cases h : v < t <;> simp [tTurnOnWaterPumpBaseOnMoistureCb, h]

/-! ## Claim theorems -/

/-- C1: enabling the run-pump task performs exactly one pump-on write and one
shadow-publish restart at enable time; for every elapsed time strictly below
the configured interval of tTurnOnWaterPump no further effect has occurred,
and from the interval onward exactly one pump-off write and one further
shadow-publish restart have been appended by the disable hook, never again
repeated. -/
theorem c1_pump_dose_bounding (n : Nat) :
    (pumpRun n).trace =
      if n < tTurnOnWaterPump.interval then
        [Effect.writePump true, Effect.restartShadow]
      else
        [Effect.writePump true, Effect.restartShadow,
         Effect.writePump false, Effect.restartShadow] := by
  rw [pumpRun_closed_form]
  by_cases h : n < tTurnOnWaterPump.interval <;> simp [h]

/-- C2 counterexample: the claim that tPublishShadowUpdate and
tPublishSensorsMeasurements are constructed with connected() as their
OnEnable predicate is false — both Task constructor calls in main.cpp pass
only five arguments, leaving OnEnable NULL. -/
theorem c2_counterexample :
    ¬ (tPublishShadowUpdate.onEnable = some OnEnableHook.gateOnConnected ∧
       tPublishSensorsMeasurements.onEnable = some OnEnableHook.gateOnConnected) := by
  decide

/-- C2 amended: the two publish tasks are constructed with no enable
predicate at all, so an activation is never vetoed: even while connected()
is false, enabling either task arms it and (its interval being zero) its body
runs on the next scheduler pass. -/
theorem c2_publish_tasks_not_gated :
    tPublishShadowUpdate.onEnable = none ∧
    tPublishSensorsMeasurements.onEnable = none ∧
    activationRunsBody tPublishShadowUpdate false = true ∧
    activationRunsBody tPublishSensorsMeasurements false = true := by
  decide

/-- C3: with every configuration file loading successfully except the AWS
thing name, setup prints the thing-name diagnostic but does not return: it
proceeds to enable all four startup tasks, contradicting the fatality the
spec requires of every configuration load failure. -/
theorem c3_thing_name_failure_not_fatal :
    SetupEvent.diag DiagMsg.couldNotReadThingName ∈ setup cfgMissingThingName 50 400 ∧
    SetupEvent.enableTask TaskId.happyHerbsServiceLoop ∈ setup cfgMissingThingName 50 400 ∧
    SetupEvent.enableTask TaskId.periodicSensorsMeasurementsPublish ∈ setup cfgMissingThingName 50 400 ∧
    SetupEvent.enableTask TaskId.turnOnLampBaseOnLightMeter ∈ setup cfgMissingThingName 50 400 ∧
    SetupEvent.enableTask TaskId.turnOnWaterPumpBaseOnMoisture ∈ setup cfgMissingThingName 50 400 := by
  decide

/-- C4: one execution of the light-rule body emits a lamp-off write, then a
lamp-on write exactly when the reading is strictly below the light threshold,
then a restart of the shadow-publish task; and after any positive number of
executions with a fixed reading the lamp state equals the comparison of the
reading against the threshold, independent of the initial lamp state, so it
never alternates without a reading change. -/
theorem c4_light_rule_idempotent (s : HappyHerbsState) (r : Int) (n : Nat) (h : 1 ≤ n) :
    (tTurnOnLampBaseOnLightMeterCb s r).2 =
      [Effect.writeLamp false]
        ++ (if r < s.lightThreshold then [Effect.writeLamp true] else [])
        ++ [Effect.restartShadow] ∧
    (lightRuleIter s r n).lampOn = decide (r < s.lightThreshold) := by
  constructor
  · by_cases hr : r < s.lightThreshold <;> simp [tTurnOnLampBaseOnLightMeterCb, hr]
  · obtain ⟨m, rfl⟩ : ∃ m, n = m + 1 := ⟨n - 1, by omega⟩
    rw [lightRuleIter]
    by_cases hr : r < s.lightThreshold <;>
      simp [tTurnOnLampBaseOnLightMeterCb, lightRuleIter_lightThreshold, hr]

/-- Witness for C4 at the state with the lamp initially on, light threshold
100, reading 50 and two executions. -/
theorem c4_witness :
    1 ≤ 2 ∧
    ((tTurnOnLampBaseOnLightMeterCb ⟨true, false, 100, 400⟩ 50).2 =
      [Effect.writeLamp false]
        ++ (if (50 : Int) < (⟨true, false, 100, 400⟩ : HappyHerbsState).lightThreshold then
              [Effect.writeLamp true] else [])
        ++ [Effect.restartShadow] ∧
    (lightRuleIter ⟨true, false, 100, 400⟩ 50 2).lampOn =
      decide ((50 : Int) < (⟨true, false, 100, 400⟩ : HappyHerbsState).lightThreshold)) :=
  ⟨by decide, c4_light_rule_idempotent ⟨true, false, 100, 400⟩ 50 2 (by decide)⟩

/-- C5 counterexample: the moisture-rule body contains no sentinel check; a
failure sentinel such as -1 compares strictly below any positive threshold
and does restart the run-pump task — here at thresholds 400 and 1. -/
theorem c5_counterexample :
    tTurnOnWaterPumpBaseOnMoistureCb (-1) 400 = [Effect.restartPumpTask] ∧
    tTurnOnWaterPumpBaseOnMoistureCb (-1) 1 = [Effect.restartPumpTask] := by
  decide

/-- C5 amended: the moisture rule performs no explicit sentinel check — its
body restarts the run-pump task exactly when the raw value returned by the
sensor read, sentinel or not, compares strictly below the moisture
threshold. -/
theorem c5_no_sentinel_guard (v t : Int) :
    Effect.restartPumpTask ∈ tTurnOnWaterPumpBaseOnMoistureCb v t ↔ v < t :=
  moistureCb_restart_iff v t

/-- C6: when connected() is true the service-loop body only services messages
via loop() and returns; no connect() attempt occurs in that execution,
whatever the outcome of a connect() attempt would have been. -/
theorem c6_connect_gating (connectWouldSucceed : Bool) :
    tHappyHerbsServiceLoopCb true connectWouldSucceed = [Effect.serviceLoop] ∧
    Effect.connectAttempt ∉ tHappyHerbsServiceLoopCb true connectWouldSucceed := by
  cases connectWouldSucceed <;> exact ⟨rfl, by decide⟩

/-- C7 counterexample: with every configuration step succeeding, the setup of
main.cpp does enable tTurnOnWaterPumpBaseOnMoisture (last of the four enable
calls), so the moisture-threshold automation task is not disabled in the
observed configuration. -/
theorem c7_counterexample :
    SetupEvent.enableTask TaskId.turnOnWaterPumpBaseOnMoisture ∈ setup cfgAllOk 50 400 := by
  decide

/-- C7 amended: on every setup run in which the fallible steps succeed, the
moisture-threshold automation task is enabled by setup along with the other
three periodic tasks. -/
theorem c7_moisture_task_enabled (cfg : SetupConfig) (dlt dmt : Int)
    (h : setupOk cfg = true) :
    SetupEvent.enableTask TaskId.turnOnWaterPumpBaseOnMoisture ∈ setup cfg dlt dmt := by
  obtain ⟨sp, ls, ep, ca, cc, ck, tn⟩ := cfg
  cases sp
  · simp [setupOk] at h
  · cases ep
    · simp [setupOk] at h
    · cases ca
      · simp [setupOk] at h
      · cases cc
        · simp [setupOk] at h
        · cases ck
          · simp [setupOk] at h
          · cases tn
            · simp [setupOk] at h
            · cases ls <;> simp [setup]

/-- Witness for C7 at the all-successful configuration with thresholds 50 and
400. -/
theorem c7_witness :
    setupOk cfgAllOk = true ∧
    SetupEvent.enableTask TaskId.turnOnWaterPumpBaseOnMoisture ∈ setup cfgAllOk 50 400 :=
  ⟨by decide, c7_moisture_task_enabled cfgAllOk 50 400 (by decide)⟩

/-- C8 counterexample: the moisture-rule period is not strictly longer than
the light-rule period — tTurnOnWaterPumpBaseOnMoisture runs every 15 minutes
and tTurnOnLampBaseOnLightMeter every 30 minutes. -/
theorem c8_counterexample :
    ¬ tTurnOnLampBaseOnLightMeter.interval < tTurnOnWaterPumpBaseOnMoisture.interval := by
  decide

/-- C8 amended: the moisture-rule period is strictly shorter than the
light-rule period, and the moisture rule restarts the run-pump task exactly
when the sampled reading is strictly below the threshold, doing nothing at or
above it. -/
theorem c8_moisture_rule_period_and_action (v t : Int) :
    tTurnOnWaterPumpBaseOnMoisture.interval < tTurnOnLampBaseOnLightMeter.interval ∧
    (Effect.restartPumpTask ∈ tTurnOnWaterPumpBaseOnMoistureCb v t ↔ v < t) ∧
    (tTurnOnWaterPumpBaseOnMoistureCb v t = [] ↔ ¬ v < t) := by
  refine ⟨by decide, moistureCb_restart_iff v t, ?_⟩
  by_cases h : v < t <;> simp [tTurnOnWaterPumpBaseOnMoistureCb, h]

/-- C9: when the service-loop body finds the service disconnected, it
attempts connect(); on success it restarts the shadow-publish task delayed by
500 ms, and on failure it performs no restart and no other effect. -/
theorem c9_reconnect_publishes_shadow :
    tHappyHerbsServiceLoopCb false true =
      [Effect.connectAttempt, Effect.restartShadowDelayed 500] ∧
    tHappyHerbsServiceLoopCb false false = [Effect.connectAttempt] :=
  ⟨rfl, rfl⟩

/-- C10: on a fully successful setup, folding every setup step that precedes
the first task enable over an arbitrary prior device state yields lamp off,
pump off and the two compile-time default thresholds, and the remaining steps
are exactly the four task enables — so the first state any task body can
observe is actuators-off with default thresholds. -/
theorem c10_initial_state (cfg : SetupConfig) (dlt dmt : Int) (s0 : HappyHerbsState)
    (h : setupOk cfg = true) :
    applyEvents s0 ((setup cfg dlt dmt).takeWhile (fun e => !isEnableEvent e)) =
      { lampOn := false, pumpOn := false, lightThreshold := dlt, moistureThreshold := dmt } ∧
    (setup cfg dlt dmt).dropWhile (fun e => !isEnableEvent e) =
      [SetupEvent.enableTask TaskId.happyHerbsServiceLoop,
       SetupEvent.enableTask TaskId.periodicSensorsMeasurementsPublish,
       SetupEvent.enableTask TaskId.turnOnLampBaseOnLightMeter,
       SetupEvent.enableTask TaskId.turnOnWaterPumpBaseOnMoisture] := by
  obtain ⟨sp, ls, ep, ca, cc, ck, tn⟩ := cfg
  cases sp
  · simp [setupOk] at h
  · cases ep
    · simp [setupOk] at h
    · cases ca
      · simp [setupOk] at h
      · cases cc
        · simp [setupOk] at h
        · cases ck
          · simp [setupOk] at h
          · cases tn
            · simp [setupOk] at h
            · cases ls <;> exact ⟨rfl, rfl⟩

/-- Witness for C10 at the all-successful configuration, defaults 50 and 400,
and a prior state with both actuators on and zero thresholds. -/
theorem c10_witness :
    setupOk cfgAllOk = true ∧
    (applyEvents ⟨true, true, 0, 0⟩
        ((setup cfgAllOk 50 400).takeWhile (fun e => !isEnableEvent e)) =
      { lampOn := false, pumpOn := false, lightThreshold := 50, moistureThreshold := 400 } ∧
    (setup cfgAllOk 50 400).dropWhile (fun e => !isEnableEvent e) =
      [SetupEvent.enableTask TaskId.happyHerbsServiceLoop,
       SetupEvent.enableTask TaskId.periodicSensorsMeasurementsPublish,
       SetupEvent.enableTask TaskId.turnOnLampBaseOnLightMeter,
       SetupEvent.enableTask TaskId.turnOnWaterPumpBaseOnMoisture]) :=
  ⟨by decide, c10_initial_state cfgAllOk 50 400 ⟨true, true, 0, 0⟩ (by decide)⟩
